import Mathlib

/-!
Shallow embedding of the LLM Suite inference comparator (src/main.py):
the single-model query client (blocking and streaming forms), the
orchestration loop over the selected models, the response evaluation
pass, the think-block filter, result display, the cooperative
cancellation flag, and profile persistence.
-/

set_option maxRecDepth 10000

namespace LLMSuite

/-- Python dict assignment on an insertion-ordered association list:
an existing key keeps its position and receives the new value, a new
key is appended at the end. -/
def insertOrUpdate {β : Type} : List (String × β) → String → β → List (String × β)
  | [], k, v => [(k, v)]
  | (k', v') :: rest, k, v =>
    if k' == k then (k', v) :: rest else (k', v') :: insertOrUpdate rest k v

/-- Python str.startswith, as used on response texts. -/
def pyStartswith (s pre : String) : Bool := List.isPrefixOf pre.data s.data

/-- Exact decimal value, modelling the Python floats that appear in the
temperature slider and the profile file. -/
structure Decimal where
  mantissa : Int
  exponent : Nat
deriving DecidableEq

/-- Parameters assembled for ollama.generate by query_model and
query_model_streaming in src/main.py. -/
structure GenParams where
  model : String
  prompt : String
  stream : Bool
  temperature : Decimal
  system : Option String
deriving DecidableEq

/-- Parameter assembly shared by both query forms: the system prompt is
attached only when present and non-blank (Python: if system_prompt and
system_prompt.strip()). -/
def mkGenParams (model_name prompt : String) (system_prompt : Option String)
    (temperature : Decimal) (stream : Bool) : GenParams :=
  { model := model_name, prompt := prompt, stream := stream,
    temperature := temperature,
    system := match system_prompt with
      | some sp => if sp.trim != "" then some sp else none
      | none => none }

/-- query_model from src/main.py: blocking query; any exception raised
by the backend call is converted to the sentinel text. The external
ollama.generate call is a parameter; Except.error models a raised
exception. -/
def query_model (generate : GenParams → Except String String)
    (model_name prompt : String) (system_prompt : Option String)
    (temperature : Decimal) : String :=
  match generate (mkGenParams model_name prompt system_prompt temperature false) with
  | Except.ok response => response
  | Except.error e => "Error: Unable to query model. " ++ e

/-- The chunk-consumption loop of query_model_streaming: before each
received chunk the stop_inference flag is checked (stop i is the flag
value observed at the i-th check); a chunk carrying response text
(some t) is appended to the accumulator, other chunks are skipped. -/
def stream_consume (stop : Nat → Bool) : Nat → String → List (Option String) → String
  | _, acc, [] => acc
  | i, acc, c :: rest =>
    if stop i then acc
    else
      match c with
      | some t => stream_consume stop (i + 1) (acc ++ t) rest
      | none => stream_consume stop (i + 1) acc rest

/-- query_model_streaming from src/main.py: on a raised exception the
sentinel replaces the whole result; otherwise the chunks are consumed
in arrival order under the stop flag. -/
def query_model_streaming (stop : Nat → Bool)
    (generate : GenParams → Except String (List (Option String)))
    (model_name prompt : String) (system_prompt : Option String)
    (temperature : Decimal) : String :=
  match generate (mkGenParams model_name prompt system_prompt temperature true) with
  | Except.ok chunks => stream_consume stop 0 "" chunks
  | Except.error e => "Error: Unable to stream from model. " ++ e

/-- Outcome of one model's dispatch inside process_models: either the
query client returned text normally (ok, which covers sentinel error
texts as well) or an exception escaped it (raised). -/
inductive QueryOutcome where
  | ok (text : String)
  | raised (msg : String)
deriving DecidableEq

/-- Text stored in results for a dispatch outcome. -/
def stored : QueryOutcome → String
  | QueryOutcome.ok t => t
  | QueryOutcome.raised msg => "Unhandled error: " ++ msg

/-- The mutable per-run state written by process_models. -/
structure RunOutcome where
  results : List (String × String)
  debug_info : List String
deriving DecidableEq

/-- The per-model loop of process_models (src/main.py lines 672-706):
before dispatch the stop flag is checked; on stop a log entry is
appended and the loop ends; otherwise the model's text (or its
unhandled-error text) is stored under its key and the loop continues. -/
def process_loop (oracle : String → QueryOutcome) (stop : Nat → Bool) :
    List String → Nat → RunOutcome → RunOutcome
  | [], _, st => st
  | m :: rest, i, st =>
    if stop i then
      { st with debug_info := st.debug_info ++ ["Inference stopped by user"] }
    else
      match oracle m with
      | QueryOutcome.ok response =>
        process_loop oracle stop rest (i + 1)
          { st with results := insertOrUpdate st.results m response }
      | QueryOutcome.raised msg =>
        process_loop oracle stop rest (i + 1)
          { results := insertOrUpdate st.results m ("Unhandled error: " ++ msg),
            debug_info := st.debug_info ++
              ["Unhandled exception for " ++ m ++ ": " ++ msg] }

/-- process_models: resets debug_info and runs the loop over the
selected models from iteration 0, starting from the given results. -/
def process_models (oracle : String → QueryOutcome) (stop : Nat → Bool)
    (selected_models : List String) (results0 : List (String × String)) : RunOutcome :=
  process_loop oracle stop selected_models 0
    { results := results0,
      debug_info := ["Starting comparison with " ++ toString selected_models.length ++ " models"] }

/-- The compare-button flow (src/main.py lines 727-754): results are
cleared before process_models runs. -/
def compare_run (oracle : String → QueryOutcome) (stop : Nat → Bool)
    (selected_models : List String) : RunOutcome :=
  process_models oracle stop selected_models []

/-- Key list of a results mapping, in insertion order. -/
def keys (results : List (String × String)) : List String := results.map Prod.fst

/-- success_count (src/main.py line 764): responses not starting with
the literal "Error". -/
def success_count (results : List (String × String)) : Nat :=
  (results.filter (fun r => !(pyStartswith r.2 "Error"))).length

/-- error_count (src/main.py line 765). -/
def error_count (results : List (String × String)) : Nat :=
  results.length - success_count results

/-- The formatted_responses accumulation loop of evaluate_responses
(src/main.py lines 277-279): one labelled block per response, indices
from enumerate(responses.items(), 1). -/
def format_responses : Nat → List (String × String) → String
  | _, [] => ""
  | i, (model_name, response) :: rest =>
    "\n\n--- MODEL " ++ toString i ++ ": " ++ model_name ++ " ---\n" ++ response
      ++ format_responses (i + 1) rest

/-- full_prompt built by evaluate_responses (src/main.py lines 281-287). -/
def evaluate_responses_prompt (responses : List (String × String))
    (user_prompt : String) : String :=
  "Original User Prompt: " ++ user_prompt ++
    "\n\nThe following are responses from different LLM models to this prompt:\n" ++
    format_responses 1 responses ++
    "\n\nBased on these responses, please provide your evaluation.\n"

/-- evaluate_responses (src/main.py lines 274-295): sends the composite
prompt to the blocking query form with the evaluation instruction as
the system-prompt channel. -/
def evaluate_responses (generate : GenParams → Except String String)
    (evaluation_model : String) (responses : List (String × String))
    (user_prompt evaluation_prompt : String) (temperature : Decimal) : String :=
  query_model generate evaluation_model
    (evaluate_responses_prompt responses user_prompt)
    (some evaluation_prompt) temperature

/-- Splits a character list at the first occurrence of the literal
pattern pat: returns (text before the match, text after the match), or
none when pat does not occur. -/
def splitAtFirst (pat : List Char) : List Char → Option (List Char × List Char)
  | [] => if pat.isEmpty then some ([], []) else none
  | c :: cs =>
    if pat.isPrefixOf (c :: cs) then some ([], (c :: cs).drop pat.length)
    else
      match splitAtFirst pat cs with
      | some (pre, rest) => some (c :: pre, rest)
      | none => none

/-- The literal opening marker of a think block. -/
def openTag : List Char := "<think>".data

/-- The literal closing marker of a think block. -/
def closeTag : List Char := "</think>".data

/-- Leftmost-first, shortest-match removal loop behind
re.sub("<think>.*?</think>", "", text, flags=re.DOTALL): each step
removes the span from the first opening marker to the nearest following
closing marker and continues after it; when either marker is missing
the text is returned unchanged. The fuel argument only bounds the
recursion; each step strictly shortens the text, so fuel equal to the
initial length is never exhausted. -/
def removeThinkAux : Nat → List Char → List Char
  | 0, l => l
  | fuel + 1, l =>
    match splitAtFirst openTag l with
    | none => l
    | some (pre, rest1) =>
      match splitAtFirst closeTag rest1 with
      | none => l
      | some (_mid, post) => pre ++ removeThinkAux fuel post

/-- remove_think_blocks (src/main.py lines 724-725). -/
def remove_think_blocks (text : String) : String :=
  String.mk (removeThinkAux text.data.length text.data)

/-- The stored results mapping as seen by the display code. -/
structure DisplayState where
  results : List (String × String)
deriving DecidableEq

/-- The stacked results view (src/main.py lines 867-873): for each
stored entry a local response variable is filtered when the setting is
enabled and then rendered; the stored state itself is only read, and
the function returns it alongside the rendered texts. -/
def display_results (remove_think_blocks_setting : Bool) (s : DisplayState) :
    List (String × String) × DisplayState :=
  (s.results.map (fun p =>
    (p.1, if remove_think_blocks_setting then remove_think_blocks p.2 else p.2)), s)

/-- The pieces of st.session_state touched by the compare-button and
stop-button handlers. -/
structure Session where
  results : List (String × String)
  evaluation_result : Option String
  stop_inference : Bool
  inference_running : Bool
deriving DecidableEq

/-- User interactions that can write the session state during a run:
pressing Compare Models (a new run), pressing Stop Inference, or any
other rerender that leaves these fields alone. -/
inductive UiEvent where
  | startRun
  | pressStop
  | rerender
deriving DecidableEq

/-- The writes each interaction performs (src/main.py lines 727-747):
starting a run clears results and the evaluation result, resets
stop_inference to False and marks the run as running; the stop button
sets stop_inference to True; nothing else writes the flag. -/
def apply_event (s : Session) : UiEvent → Session
  | UiEvent.startRun =>
    { s with
      results := []
      evaluation_result := none
      stop_inference := false
      inference_running := true }
  | UiEvent.pressStop => { s with stop_inference := true }
  | UiEvent.rerender => s

/-- Python str on a bool, as used when saving a profile. -/
def pyStrBool : Bool → String
  | true => "True"
  | false => "False"

/-- Modelled from the spec and the Python builtins used by the profile
handlers: left-pads a digit string with zeros to the given width. -/
def padZeros (s : String) (w : Nat) : String :=
  String.mk (List.replicate (w - s.length) '0') ++ s

/-- Modelled from the spec: Python str on a float, restricted to the
exact decimal values modelled by Decimal (the temperature slider values
and profile entries); produces the shortest decimal form, e.g. "0.42". -/
def pyStrFloat (d : Decimal) : String :=
  let n := d.mantissa.natAbs
  let sign := if d.mantissa < 0 then "-" else ""
  if d.exponent = 0 then sign ++ toString n
  else sign ++ toString (n / 10 ^ d.exponent) ++ "." ++
    padZeros (toString (n % 10 ^ d.exponent)) d.exponent

/-- Digit-string value; none when a non-digit occurs. -/
def digitsVal (l : List Char) : Option Nat :=
  l.foldl (fun acc c =>
    match acc with
    | none => none
    | some n => if c.isDigit then some (n * 10 + (c.toNat - 48)) else none)
    (some 0)

/-- Modelled from the spec: Python float() on a string, restricted to
plain decimal notation; inverse of pyStrFloat on its outputs. -/
def parseDecimal (s : String) : Option Decimal :=
  let signAndDigits : Bool × List Char :=
    match s.data with
    | '-' :: t => (true, t)
    | t => (false, t)
  let sign := signAndDigits.1
  let l := signAndDigits.2
  match splitAtFirst ['.'] l with
  | none =>
    if l.isEmpty then none
    else
      match digitsVal l with
      | some n => some ⟨if sign then -(n : Int) else (n : Int), 0⟩
      | none => none
  | some (ip, fp) =>
    if ip.isEmpty && fp.isEmpty then none
    else
      match digitsVal ip, digitsVal fp with
      | some i, some f =>
        some ⟨(if sign then -1 else 1) * ((i * 10 ^ fp.length + f : Nat) : Int), fp.length⟩
      | _, _ => none

/-- ASCII lowercase of one character, as str.lower acts on the ASCII
values relevant to the boolean table. -/
def lowerChar (c : Char) : Char :=
  if 'A' ≤ c ∧ c ≤ 'Z' then Char.ofNat (c.toNat + 32) else c

/-- Python str.lower, character by character. -/
def pyLower (s : String) : String := String.mk (s.data.map lowerChar)

/-- configparser.getboolean value parsing: the BOOLEAN_STATES table
applied to the lowercased value; anything else raises. -/
def pyGetBoolean (v : String) : Except String Bool :=
  let lv := pyLower v
  if lv = "1" ∨ lv = "yes" ∨ lv = "true" ∨ lv = "on" then Except.ok true
  else if lv = "0" ∨ lv = "no" ∨ lv = "false" ∨ lv = "off" then Except.ok false
  else Except.error ("Not a boolean: " ++ v)

/-- The run configuration held in session state and bundled by the
profile handlers. -/
structure Settings where
  selected_models : List String
  enable_streaming : Bool
  temperature : Decimal
  system_prompt : String
  evaluation_model : String
  evaluation_prompt : String
  remove_think_blocks_setting : Bool
deriving DecidableEq

/-- One profile section of the key-value file. -/
def IniSection : Type := List (String × String)

/-- The whole profile file: named sections in order. -/
def IniConfig : Type := List (String × IniSection)

/-- The section written by the save-profile handler (src/main.py lines
632-640): every value is stored as a string. -/
def save_profile_section (st : Settings) : IniSection :=
  [("selected_models", String.intercalate "," st.selected_models),
   ("enable_streaming", pyStrBool st.enable_streaming),
   ("temperature", pyStrFloat st.temperature),
   ("system_prompt", st.system_prompt),
   ("evaluation_model", st.evaluation_model),
   ("evaluation_prompt", st.evaluation_prompt),
   ("remove_think_blocks", pyStrBool st.remove_think_blocks_setting)]

/-- config[new_profile_name] = {...} followed by save_profiles
(src/main.py lines 632-641). -/
def save_profile (config : IniConfig) (name : String) (st : Settings) : IniConfig :=
  insertOrUpdate config name (save_profile_section st)

/-- The load-profile handler (src/main.py lines 585-603): reads each
key with its default, parses the boolean flags with getboolean and the
temperature with float(), and splits the comma-joined model list,
dropping empty names. -/
def load_profile (profile : IniSection) : Except String Settings :=
  let models_str := (List.lookup "selected_models" profile).getD ""
  let loaded_models := (models_str.splitOn ",").filter (fun m => m != "")
  match (match List.lookup "enable_streaming" profile with
         | none => Except.ok true
         | some v => pyGetBoolean v) with
  | Except.error e => Except.error e
  | Except.ok streaming =>
    match (match List.lookup "temperature" profile with
           | none => Except.ok (⟨7, 1⟩ : Decimal)
           | some v =>
             match parseDecimal v with
             | some d => Except.ok d
             | none => Except.error ("could not convert string to float: " ++ v)) with
    | Except.error e => Except.error e
    | Except.ok temp =>
      match (match List.lookup "remove_think_blocks" profile with
             | none => Except.ok false
             | some v => pyGetBoolean v) with
      | Except.error e => Except.error e
      | Except.ok remove_tb =>
        Except.ok
          { selected_models := loaded_models,
            enable_streaming := streaming,
            temperature := temp,
            system_prompt := (List.lookup "system_prompt" profile).getD "",
            evaluation_model := (List.lookup "evaluation_model" profile).getD "",
            evaluation_prompt := (List.lookup "evaluation_prompt" profile).getD "",
            remove_think_blocks_setting := remove_tb }

/-! ### Helper lemmas -/

lemma isPrefixOf_append_left {p l1 : List Char} (h : List.isPrefixOf p l1 = true)
    (l2 : List Char) : List.isPrefixOf p (l1 ++ l2) = true := by
  induction p generalizing l1 with
  | nil => simp
  | cons a as ih =>
    cases l1 with
    | nil => simp at h
    | cons b bs =>
      rw [List.isPrefixOf_cons₂] at h
      rw [List.cons_append, List.isPrefixOf_cons₂]
      simp only [Bool.and_eq_true] at h ⊢
      exact ⟨h.1, ih h.2⟩

lemma lookup_insertOrUpdate_self {β : Type} (l : List (String × β)) (k : String) (v : β) :
    List.lookup k (insertOrUpdate l k v) = some v := by
  induction l with
  | nil => simp [insertOrUpdate, List.lookup]
  | cons p rest ih =>
    obtain ⟨k', v'⟩ := p
    by_cases h : k' = k
    · subst h
      simp [insertOrUpdate, List.lookup]
    · have hb : (k' == k) = false := beq_eq_false_iff_ne.mpr h
      have hb' : (k == k') = false := beq_eq_false_iff_ne.mpr (Ne.symm h)
      simp [insertOrUpdate, List.lookup, hb, hb', ih]

lemma lookup_insertOrUpdate_ne {β : Type} (l : List (String × β)) (k k' : String) (v : β)
    (h : k' ≠ k) : List.lookup k' (insertOrUpdate l k v) = List.lookup k' l := by
  induction l with
  | nil =>
    have hb : (k' == k) = false := beq_eq_false_iff_ne.mpr h
    simp [insertOrUpdate, List.lookup, hb]
  | cons p rest ih =>
    obtain ⟨k'', v''⟩ := p
    by_cases hk : k'' = k
    · subst hk
      have hb : (k' == k'') = false := beq_eq_false_iff_ne.mpr h
      simp [insertOrUpdate, List.lookup, hb]
    · have hb : (k'' == k) = false := beq_eq_false_iff_ne.mpr hk
      by_cases he : k' = k''
      · subst he
        simp [insertOrUpdate, List.lookup, hb]
      · have hb' : (k' == k'') = false := beq_eq_false_iff_ne.mpr he
        simp [insertOrUpdate, List.lookup, hb, hb', ih]

lemma insertOrUpdate_of_lookup_none {β : Type} (l : List (String × β)) (k : String) (v : β)
    (h : List.lookup k l = none) : insertOrUpdate l k v = l ++ [(k, v)] := by
  induction l with
  | nil => rfl
  | cons p rest ih =>
    obtain ⟨k', v'⟩ := p
    simp only [List.lookup] at h
    by_cases he : k = k'
    · subst he
      simp at h
    · have hb : (k == k') = false := beq_eq_false_iff_ne.mpr he
      rw [hb] at h
      have hb' : (k' == k) = false := beq_eq_false_iff_ne.mpr (Ne.symm he)
      simp [insertOrUpdate, hb', ih h]

lemma lookup_map_pair (g : String → String) :
    ∀ (l : List String) (m : String), m ∈ l →
    List.lookup m (l.map (fun x => (x, g x))) = some (g m) := by
  intro l
  induction l with
  | nil => intro m hm; simp at hm
  | cons a as ih =>
    intro m hm
    by_cases he : m = a
    · subst he
      simp [List.lookup]
    · have hb : (m == a) = false := beq_eq_false_iff_ne.mpr he
      have hmem : m ∈ as := by
        rcases List.mem_cons.mp hm with h | h
        · exact absurd h he
        · exact h
      simp [List.lookup, hb, ih m hmem]

/-- Concatenation of a fragment list in order, used to state the
streaming contract. -/
def concatTexts : List String → String
  | [] => ""
  | s :: rest => s ++ concatTexts rest

lemma stream_consume_eq (stop : Nat → Bool) :
    ∀ (chunks : List (Option String)) (k i : Nat) (acc : String),
    (∀ j, j < k → stop (i + j) = false) →
    (k = chunks.length ∨ stop (i + k) = true) →
    stream_consume stop i acc chunks = acc ++ concatTexts ((chunks.take k).filterMap id) := by
  intro chunks
  induction chunks with
  | nil =>
    intro k i acc _ _
    simp [stream_consume, concatTexts, String.append_empty]
  | cons c rest ih =>
    intro k i acc hstop hk
    match k with
    | 0 =>
      have hstopi : stop i = true := by
        rcases hk with h | h
        · simp at h
        · simpa using h
      simp [stream_consume, hstopi, concatTexts, String.append_empty]
    | Nat.succ k' =>
      have hstopi : stop i = false := by simpa using hstop 0 (Nat.succ_pos k')
      have hstop' : ∀ j, j < k' → stop (i + 1 + j) = false := by
        intro j hj
        have := hstop (j + 1) (by omega)
        rwa [show i + (j + 1) = i + 1 + j by omega] at this
      have hk' : k' = rest.length ∨ stop (i + 1 + k') = true := by
        rcases hk with h | h
        · left; simpa using h
        · right
          rwa [show i + (k' + 1) = i + 1 + k' by omega] at h
      cases c with
      | some t =>
        rw [stream_consume, hstopi]
        simp only [Bool.false_eq_true, if_false]
        rw [ih k' (i + 1) (acc ++ t) hstop' hk']
        simp [concatTexts, String.append_assoc]
      | none =>
        rw [stream_consume, hstopi]
        simp only [Bool.false_eq_true, if_false]
        rw [ih k' (i + 1) acc hstop' hk']
        simp [concatTexts]

lemma process_loop_results (oracle : String → QueryOutcome) (stop : Nat → Bool) :
    ∀ (models : List String) (i : Nat) (st : RunOutcome) (k : Nat),
    models.Nodup → (∀ m ∈ models, List.lookup m st.results = none) →
    (∀ j, j < k → stop (i + j) = false) →
    (k = models.length ∨ (k < models.length ∧ stop (i + k) = true)) →
    (process_loop oracle stop models i st).results
      = st.results ++ (models.take k).map (fun m => (m, stored (oracle m))) := by
  intro models
  induction models with
  | nil =>
    intro i st k _ _ _ hk
    have hk0 : k = 0 := by
      rcases hk with h | h
      · simpa using h
      · exact absurd h.1 (by simp)
    subst hk0
    simp [process_loop]
  | cons m rest ih =>
    intro i st k hnd hfresh hstop hk
    match k with
    | 0 =>
      have hstopi : stop i = true := by
        rcases hk with h | h
        · simp at h
        · simpa using h.2
      simp [process_loop, hstopi]
    | Nat.succ k' =>
      have hstopi : stop i = false := by simpa using hstop 0 (Nat.succ_pos k')
      have hndrest : rest.Nodup := (List.nodup_cons.mp hnd).2
      have hmnotin : m ∉ rest := (List.nodup_cons.mp hnd).1
      have hfreshm : List.lookup m st.results = none := hfresh m (by simp)
      have hstop' : ∀ j, j < k' → stop (i + 1 + j) = false := by
        intro j hj
        have := hstop (j + 1) (by omega)
        rwa [show i + (j + 1) = i + 1 + j by omega] at this
      have hk' : k' = rest.length ∨ (k' < rest.length ∧ stop (i + 1 + k') = true) := by
        rcases hk with h | h
        · left; simpa using h
        · right
          refine ⟨by simpa using h.1, ?_⟩
          have := h.2
          rwa [show i + (k' + 1) = i + 1 + k' by omega] at this
      cases horacle : oracle m with
      | ok response =>
        have hfresh' : ∀ m' ∈ rest,
            List.lookup m' (insertOrUpdate st.results m response) = none := by
          intro m' hm'
          rw [lookup_insertOrUpdate_ne st.results m m' response
            (fun he => hmnotin (he ▸ hm'))]
          exact hfresh m' (by simp [hm'])
        rw [process_loop, hstopi]
        simp only [Bool.false_eq_true, if_false, horacle]
        rw [ih (i + 1) _ k' hndrest hfresh' hstop' hk']
        simp [insertOrUpdate_of_lookup_none st.results m response hfreshm, horacle,
          stored, List.append_assoc]
      | raised msg =>
        have hfresh' : ∀ m' ∈ rest,
            List.lookup m' (insertOrUpdate st.results m ("Unhandled error: " ++ msg)) = none := by
          intro m' hm'
          rw [lookup_insertOrUpdate_ne st.results m m' ("Unhandled error: " ++ msg)
            (fun he => hmnotin (he ▸ hm'))]
          exact hfresh m' (by simp [hm'])
        rw [process_loop, hstopi]
        simp only [Bool.false_eq_true, if_false, horacle]
        rw [ih (i + 1) _ k' hndrest hfresh' hstop' hk']
        simp [insertOrUpdate_of_lookup_none st.results m _ hfreshm, horacle,
          stored, List.append_assoc]

lemma process_loop_debug_mono (oracle : String → QueryOutcome) (stop : Nat → Bool) :
    ∀ (models : List String) (i : Nat) (st : RunOutcome) (x : String),
    x ∈ st.debug_info → x ∈ (process_loop oracle stop models i st).debug_info := by
  intro models
  induction models with
  | nil => intro i st x hx; simpa [process_loop] using hx
  | cons m rest ih =>
    intro i st x hx
    cases hstopi : stop i with
    | true => simp [process_loop, hstopi, hx]
    | false =>
      rw [process_loop, hstopi]
      simp only [Bool.false_eq_true, if_false]
      cases horacle : oracle m with
      | ok response => exact ih (i + 1) _ x hx
      | raised msg =>
        exact ih (i + 1) _ x (by simp [hx])

lemma process_loop_debug_stop (oracle : String → QueryOutcome) (stop : Nat → Bool) :
    ∀ (models : List String) (i : Nat) (st : RunOutcome) (k : Nat),
    (∀ j, j < k → stop (i + j) = false) → k < models.length → stop (i + k) = true →
    "Inference stopped by user" ∈ (process_loop oracle stop models i st).debug_info := by
  intro models
  induction models with
  | nil => intro i st k _ hk _; simp at hk
  | cons m rest ih =>
    intro i st k hstop hk hstopk
    match k with
    | 0 =>
      have hstopi : stop i = true := by simpa using hstopk
      simp [process_loop, hstopi]
    | Nat.succ k' =>
      have hstopi : stop i = false := by simpa using hstop 0 (Nat.succ_pos k')
      have hstop' : ∀ j, j < k' → stop (i + 1 + j) = false := by
        intro j hj
        have := hstop (j + 1) (by omega)
        rwa [show i + (j + 1) = i + 1 + j by omega] at this
      have hstopk' : stop (i + 1 + k') = true := by
        rwa [show i + (k' + 1) = i + 1 + k' by omega] at hstopk
      have hk' : k' < rest.length := by simpa using hk
      rw [process_loop, hstopi]
      simp only [Bool.false_eq_true, if_false]
      cases horacle : oracle m with
      | ok response => exact ih (i + 1) _ k' hstop' hk' hstopk'
      | raised msg => exact ih (i + 1) _ k' hstop' hk' hstopk'

lemma process_loop_debug_raised (oracle : String → QueryOutcome) (stop : Nat → Bool) :
    ∀ (models : List String) (i : Nat) (st : RunOutcome) (m msg : String),
    (∀ j, j < models.length → stop (i + j) = false) →
    m ∈ models → oracle m = QueryOutcome.raised msg →
    ("Unhandled exception for " ++ m ++ ": " ++ msg)
      ∈ (process_loop oracle stop models i st).debug_info := by
  intro models
  induction models with
  | nil => intro i st m msg _ hm _; simp at hm
  | cons a rest ih =>
    intro i st m msg hstop hm horacle
    have hstopi : stop i = false := by simpa using hstop 0 (by simp)
    have hstop' : ∀ j, j < rest.length → stop (i + 1 + j) = false := by
      intro j hj
      have := hstop (j + 1) (by simp; omega)
      rwa [show i + (j + 1) = i + 1 + j by omega] at this
    rw [process_loop, hstopi]
    simp only [Bool.false_eq_true, if_false]
    rcases List.mem_cons.mp hm with he | hmem
    · subst he
      rw [horacle]
      exact process_loop_debug_mono oracle stop rest (i + 1) _ _ (by simp)
    · cases horaclea : oracle a with
      | ok response => exact ih (i + 1) _ m msg hstop' hmem horacle
      | raised msga => exact ih (i + 1) _ m msg hstop' hmem horacle

lemma removeThinkAux_no_open (fuel : Nat) (l : List Char)
    (h : splitAtFirst openTag l = none) : removeThinkAux fuel l = l := by
  cases fuel with
  | zero => rfl
  | succ f => simp [removeThinkAux, h]

lemma removeThinkAux_no_close (fuel : Nat) (l pre rest : List Char)
    (h1 : splitAtFirst openTag l = some (pre, rest))
    (h2 : splitAtFirst closeTag rest = none) : removeThinkAux fuel l = l := by
  cases fuel with
  | zero => rfl
  | succ f => simp [removeThinkAux, h1, h2]

lemma string_mk_data (s : String) : String.mk s.data = s := rfl

lemma format_responses_append :
    ∀ (l1 l2 : List (String × String)) (i : Nat),
    format_responses i (l1 ++ l2)
      = format_responses i l1 ++ format_responses (i + l1.length) l2 := by
  intro l1
  induction l1 with
  | nil =>
    intro l2 i
    simp [format_responses, String.empty_append]
  | cons p rest ih =>
    intro l2 i
    obtain ⟨model_name, response⟩ := p
    rw [List.cons_append, format_responses, format_responses, ih l2 (i + 1)]
    rw [show i + 1 + rest.length = i + (rest.length + 1) by omega]
    simp [String.append_assoc, List.length_cons]

/-! ### Claim theorems -/

/-- Claim C6: the evaluation pass builds one composite prompt with the
original prompt first and each model's response labelled with its
1-based index and the model's name, in the insertion order of the
results mapping; for results A ↦ foo, B ↦ bar and prompt P the
composite contains foo and bar with A's response before B's. -/
theorem C6_evaluation_composite :
    (∀ (i : Nat) (l1 l2 : List (String × String)),
      format_responses i (l1 ++ l2)
        = format_responses i l1 ++ format_responses (i + l1.length) l2)
    ∧ evaluate_responses_prompt [("A", "foo"), ("B", "bar")] "P"
      = "Original User Prompt: P\n\nThe following are responses from different LLM models to this prompt:\n\n\n--- MODEL 1: A ---\nfoo\n\n--- MODEL 2: B ---\nbar\n\nBased on these responses, please provide your evaluation.\n"
    ∧ evaluate_responses_prompt [("A", "foo"), ("B", "bar")] "P"
      = "Original User Prompt: P\n\nThe following are responses from different LLM models to this prompt:\n\n\n--- MODEL 1: A ---\n"
        ++ "foo" ++ "\n\n--- MODEL 2: B ---\n" ++ "bar"
        ++ "\n\nBased on these responses, please provide your evaluation.\n" := by
  refine ⟨fun i l1 l2 => format_responses_append l1 l2 i, by decide, by decide⟩

/-- Claim C7: the think-block filter removes every non-overlapping span
from a literal opening marker to the nearest following closing marker,
across line breaks, leaving the rest untouched; marker-free input is
returned unchanged, and an opening marker with no following closing
marker leaves the input entirely as-is. -/
theorem C7_think_filter :
    remove_think_blocks "keep1<think>drop</think>keep2" = "keep1keep2"
    ∧ remove_think_blocks "a<think>x\ny</think>b<think>z</think>c" = "abc"
    ∧ (∀ s : String, splitAtFirst openTag s.data = none → remove_think_blocks s = s)
    ∧ (∀ (s : String) (pre rest : List Char),
        splitAtFirst openTag s.data = some (pre, rest) →
        splitAtFirst closeTag rest = none → remove_think_blocks s = s) := by
  refine ⟨by decide, by decide, ?_, ?_⟩
  · intro s h
    rw [remove_think_blocks, removeThinkAux_no_open _ _ h, string_mk_data]
  · intro s pre rest h1 h2
    rw [remove_think_blocks, removeThinkAux_no_close _ _ pre rest h1 h2, string_mk_data]

/-- Witness for C7: the no-marker and unterminated-marker branches at
concrete inputs. -/
theorem C7_think_filter_witness :
    remove_think_blocks "plain text" = "plain text"
    ∧ remove_think_blocks "a<think>x no close" = "a<think>x no close" := by
  constructor
  · exact C7_think_filter.2.2.1 "plain text" (by decide)
  · exact C7_think_filter.2.2.2 "a<think>x no close" "a".data "x no close".data
      (by decide) (by decide)

/-- Claim C8: the think-block filter is applied only at display time:
rendering returns the filtered texts but leaves the stored results
mapping unchanged, whatever the setting. -/
theorem C8_display_frame (remove_think_blocks_setting : Bool) (s : DisplayState)
    (m : String) :
    List.lookup m ((display_results remove_think_blocks_setting s).2).results
      = List.lookup m s.results
    ∧ (display_results remove_think_blocks_setting s).2 = s
    ∧ (display_results remove_think_blocks_setting s).1
      = s.results.map (fun p =>
          (p.1, if remove_think_blocks_setting then remove_think_blocks p.2 else p.2)) :=
  ⟨rfl, rfl, rfl⟩

/-- Claim C9: the cancellation flag is monotonic within a run: no event
other than starting a new run ever clears it, and starting a new run
resets it to false (before any model is dispatched). -/
theorem C9_cancel_flag_monotonic :
    (∀ (es : List UiEvent) (s : Session), UiEvent.startRun ∉ es →
      s.stop_inference = true → (es.foldl apply_event s).stop_inference = true)
    ∧ (∀ s : Session, (apply_event s UiEvent.startRun).stop_inference = false) := by
  constructor
  · intro es
    induction es with
    | nil => intro s _ hs; simpa using hs
    | cons e rest ih =>
      intro s hmem hs
      have hmem' : UiEvent.startRun ∉ rest := fun h => hmem (List.mem_cons_of_mem e h)
      rw [List.foldl_cons]
      cases e with
      | startRun => exact absurd (List.mem_cons_self _ _) hmem
      | pressStop => exact ih _ hmem' rfl
      | rerender => exact ih _ hmem' hs
  · intro s; rfl

/-- Witness for C9: a stop press followed by a rerender leaves the flag
set, and a run start clears it. -/
theorem C9_cancel_flag_monotonic_witness :
    (([UiEvent.pressStop, UiEvent.rerender].foldl apply_event
        ⟨[], none, true, false⟩).stop_inference = true)
    ∧ (apply_event ⟨[], none, true, false⟩ UiEvent.startRun).stop_inference = false :=
  ⟨C9_cancel_flag_monotonic.1 [UiEvent.pressStop, UiEvent.rerender]
      ⟨[], none, true, false⟩ (by decide) rfl,
    C9_cancel_flag_monotonic.2 ⟨[], none, true, false⟩⟩

lemma success_filter_sum (results : List (String × String)) :
    success_count results
      + (results.filter (fun p => pyStartswith p.2 "Error")).length
      = results.length := by
  unfold success_count
  induction results with
  | nil => rfl
  | cons r rest ih =>
    cases h : pyStartswith r.2 "Error" <;>
      simp only [List.filter_cons, h, Bool.not_true, Bool.not_false, if_true, if_false,
        List.length_cons, Bool.false_eq_true, Bool.true_eq_false, ite_true, ite_false] <;>
      omega

/-- Claim C3 counterexample: for the stored response "Error - timeout"
the code's error_count is 1, but no entry starts with the literal
"Error:" (with the colon), so error_count is not the number of entries
whose text starts with "Error:". -/
theorem C3_error_colon_counterexample :
    ¬ (error_count [("m1", "Error - timeout")]
        = (List.filter (fun p => pyStartswith p.2 "Error:")
            [("m1", "Error - timeout")]).length) := by decide

/-- Claim C3 (amended): for every results mapping,
success_count + error_count = number of entries, where error_count is
the number of entries whose text starts with the literal "Error"
(without requiring the colon) and success_count counts the rest. -/
theorem C3_success_error_partition (results : List (String × String)) :
    success_count results + error_count results = results.length
    ∧ error_count results
      = (results.filter (fun p => pyStartswith p.2 "Error")).length := by
  have hsum := success_filter_sum results
  have hle : success_count results ≤ results.length := by
    unfold success_count
    exact List.length_filter_le _ _
  constructor
  · unfold error_count; omega
  · unfold error_count; omega

/-- Claim C5: in the streaming client, once cancellation is requested
(the flag turns true at check k) the client stops consuming further
fragments and returns exactly the fragments already received,
concatenated in arrival order with no deduplication or reordering and
with no error sentinel added; without cancellation all fragments are
concatenated in arrival order. -/
theorem C5_streaming_cancellation (stop : Nat → Bool) (chunks : List (Option String))
    (model_name prompt : String) (system_prompt : Option String) (temperature : Decimal)
    (k : Nat) :
    ((∀ i, i < k → stop i = false) → stop k = true →
      query_model_streaming stop (fun _ => Except.ok chunks) model_name prompt
          system_prompt temperature
        = concatTexts ((chunks.take k).filterMap id))
    ∧ ((∀ i, i < chunks.length → stop i = false) →
      query_model_streaming stop (fun _ => Except.ok chunks) model_name prompt
          system_prompt temperature
        = concatTexts (chunks.filterMap id)) := by
  have hq : query_model_streaming stop (fun _ => Except.ok chunks) model_name prompt
      system_prompt temperature = stream_consume stop 0 "" chunks := rfl
  constructor
  · intro h1 h2
    rw [hq, stream_consume_eq stop chunks k 0 ""
      (fun j hj => by simpa using h1 j hj) (Or.inr (by simpa using h2))]
    exact String.empty_append _
  · intro h1
    rw [hq, stream_consume_eq stop chunks chunks.length 0 ""
      (fun j hj => by simpa using h1 j hj) (Or.inl rfl)]
    rw [List.take_length]
    exact String.empty_append _

/-- Witness for C5: with the flag turning true at the third check, only
the first two fragments (one of which carries no text) are consumed. -/
theorem C5_streaming_cancellation_witness :
    query_model_streaming (fun i => decide (2 ≤ i))
      (fun _ => Except.ok [some "a", none, some "b"]) "m" "p" none ⟨7, 1⟩ = "a" := by
  have h := (C5_streaming_cancellation (fun i => decide (2 ≤ i))
      [some "a", none, some "b"] "m" "p" none ⟨7, 1⟩ 2).1
    (fun i hi => by simp only [decide_eq_false_iff_not]; omega) (by decide)
  exact h.trans (by decide)

/-- Claim C2: every transport or server-side fault surfaces as returned
text starting with the literal "Error:" followed by a cause, in both
the blocking and the streaming query form, and the orchestration loop
still dispatches and records the next model after one model's sentinel
failure. -/
theorem C2_error_sentinel :
    (∀ (e model_name prompt : String) (system_prompt : Option String)
        (temperature : Decimal),
      pyStartswith (query_model (fun _ => Except.error e) model_name prompt
        system_prompt temperature) "Error:" = true)
    ∧ (∀ (stop : Nat → Bool) (e model_name prompt : String)
        (system_prompt : Option String) (temperature : Decimal),
      pyStartswith (query_model_streaming stop (fun _ => Except.error e) model_name
        prompt system_prompt temperature) "Error:" = true)
    ∧ (∀ (oracle : String → QueryOutcome) (m1 m2 : String), m1 ≠ m2 →
        ∀ t1, oracle m1 = QueryOutcome.ok t1 → pyStartswith t1 "Error:" = true →
        List.lookup m2 (compare_run oracle (fun _ => false) [m1, m2]).results
          = some (stored (oracle m2))) := by
  refine ⟨?_, ?_, ?_⟩
  · intro e model_name prompt system_prompt temperature
    show List.isPrefixOf "Error:".data ("Error: Unable to query model. " ++ e).data = true
    rw [show ("Error: Unable to query model. " ++ e).data
      = "Error: Unable to query model. ".data ++ e.data from rfl]
    exact isPrefixOf_append_left (by decide) e.data
  · intro stop e model_name prompt system_prompt temperature
    show List.isPrefixOf "Error:".data ("Error: Unable to stream from model. " ++ e).data = true
    rw [show ("Error: Unable to stream from model. " ++ e).data
      = "Error: Unable to stream from model. ".data ++ e.data from rfl]
    exact isPrefixOf_append_left (by decide) e.data
  · intro oracle m1 m2 hne t1 _ _
    have hnd : List.Nodup [m1, m2] := by simp [hne]
    have hres := process_loop_results oracle (fun _ => false) [m1, m2] 0
      { results := [],
        debug_info := ["Starting comparison with " ++ toString (List.length [m1, m2]) ++ " models"] }
      2 hnd (fun m _ => rfl) (fun j _ => rfl) (Or.inl rfl)
    rw [compare_run, process_models, hres]
    simp only [List.nil_append]
    exact lookup_map_pair (fun m => stored (oracle m)) [m1, m2] m2 (by simp)

/-- Witness for C2: both sentinel forms at a concrete fault, and the
loop recording the second model after the first returned a sentinel. -/
theorem C2_error_sentinel_witness :
    pyStartswith (query_model (fun _ => Except.error "boom") "m" "p" none ⟨7, 1⟩)
      "Error:" = true
    ∧ pyStartswith (query_model_streaming (fun _ => false)
        (fun _ => Except.error "boom") "m" "p" none ⟨7, 1⟩) "Error:" = true
    ∧ List.lookup "b" (compare_run
        (fun m => QueryOutcome.ok (if m = "a" then "Error: x" else "hi"))
        (fun _ => false) ["a", "b"]).results
      = some (stored (QueryOutcome.ok (if "b" = "a" then "Error: x" else "hi"))) :=
  ⟨C2_error_sentinel.1 "boom" "m" "p" none ⟨7, 1⟩,
    C2_error_sentinel.2.1 (fun _ => false) "boom" "m" "p" none ⟨7, 1⟩,
    C2_error_sentinel.2.2 (fun m => QueryOutcome.ok (if m = "a" then "Error: x" else "hi"))
      "a" "b" (by decide) (if "a" = "a" then "Error: x" else "hi") rfl (by decide)⟩

/-- Claim C4: when an exception escapes the query client inside the
loop, the text "Unhandled error: " plus the message is stored under the
model's key, a debug entry is appended, the loop continues with the
next model, and because that text does not start with "Error" the
summary counts it as a success. -/
theorem C4_unhandled_error_counted_success
    (oracle : String → QueryOutcome) (m1 m2 msg t2 : String)
    (hne : m1 ≠ m2) (h1 : oracle m1 = QueryOutcome.raised msg)
    (h2 : oracle m2 = QueryOutcome.ok t2) (ht2 : pyStartswith t2 "Error" = false) :
    List.lookup m1 (compare_run oracle (fun _ => false) [m1, m2]).results
        = some ("Unhandled error: " ++ msg)
    ∧ List.lookup m2 (compare_run oracle (fun _ => false) [m1, m2]).results = some t2
    ∧ ("Unhandled exception for " ++ m1 ++ ": " ++ msg)
        ∈ (compare_run oracle (fun _ => false) [m1, m2]).debug_info
    ∧ pyStartswith ("Unhandled error: " ++ msg) "Error" = false
    ∧ success_count (compare_run oracle (fun _ => false) [m1, m2]).results = 2
    ∧ error_count (compare_run oracle (fun _ => false) [m1, m2]).results = 0 := by
  have hpre : pyStartswith ("Unhandled error: " ++ msg) "Error" = false := by
    show List.isPrefixOf "Error".data ("Unhandled error: " ++ msg).data = false
    rw [show ("Unhandled error: " ++ msg).data
      = 'U' :: ("nhandled error: ".data ++ msg.data) from rfl]
    rw [show "Error".data = 'E' :: "rror".data from rfl]
    rw [List.isPrefixOf_cons₂]
    simp
  have hnd : List.Nodup [m1, m2] := by simp [hne]
  have hres0 := process_loop_results oracle (fun _ => false) [m1, m2] 0
    { results := [],
      debug_info := ["Starting comparison with " ++ toString (List.length [m1, m2]) ++ " models"] }
    2 hnd (fun m _ => rfl) (fun j _ => rfl) (Or.inl rfl)
  have hres : (compare_run oracle (fun _ => false) [m1, m2]).results
      = [(m1, "Unhandled error: " ++ msg), (m2, t2)] := by
    rw [compare_run, process_models, hres0]
    simp [h1, h2, stored]
  have hb21 : (m2 == m1) = false := beq_eq_false_iff_ne.mpr (Ne.symm hne)
  refine ⟨?_, ?_, ?_, hpre, ?_, ?_⟩
  · rw [hres]; simp [List.lookup]
  · rw [hres]; simp [List.lookup, hb21]
  · rw [compare_run, process_models]
    exact process_loop_debug_raised oracle (fun _ => false) [m1, m2] 0 _ m1 msg
      (fun j _ => rfl) (by simp) h1
  · rw [hres]
    simp [success_count, List.filter_cons, hpre, ht2]
  · rw [hres]
    simp [error_count, success_count, List.filter_cons, hpre, ht2]

/-- Witness for C4: a concrete escaped exception on the first of two
models; the run records both entries and reports two successes. -/
theorem C4_unhandled_error_counted_success_witness :
    success_count (compare_run
      (fun m => if m = "a" then QueryOutcome.raised "boom" else QueryOutcome.ok "hi")
      (fun _ => false) ["a", "b"]).results = 2
    ∧ List.lookup "a" (compare_run
      (fun m => if m = "a" then QueryOutcome.raised "boom" else QueryOutcome.ok "hi")
      (fun _ => false) ["a", "b"]).results = some ("Unhandled error: " ++ "boom") := by
  have h := C4_unhandled_error_counted_success
    (fun m => if m = "a" then QueryOutcome.raised "boom" else QueryOutcome.ok "hi")
    "a" "b" "boom" "hi" (by decide) (by decide) (by decide) (by decide)
  exact ⟨h.2.2.2.2.1, h.1⟩

lemma keys_map_pair (g : String → String) (l : List String) :
    keys (l.map (fun m => (m, g m))) = l := by
  induction l with
  | nil => rfl
  | cons a as ih => simp [keys] at ih ⊢; exact ih

/-- Claim C1: for every non-empty, duplicate-free model list, the run's
results keys (in dispatch order) equal the full requested list when the
cancellation flag is never observed true, and equal the prefix of
models dispatched before the first true observation when cancellation
occurs; the already-completed entries are kept and a cancellation log
entry is appended. -/
theorem C1_results_keys (oracle : String → QueryOutcome) (stop : Nat → Bool)
    (models : List String) (_hne : models ≠ []) (hnd : models.Nodup) :
    ((∀ i, i < models.length → stop i = false) →
      keys (compare_run oracle stop models).results = models)
    ∧ (∀ k, k < models.length → (∀ i, i < k → stop i = false) → stop k = true →
        keys (compare_run oracle stop models).results = models.take k
        ∧ (∀ m ∈ models.take k,
            List.lookup m (compare_run oracle stop models).results
              = some (stored (oracle m)))
        ∧ "Inference stopped by user" ∈ (compare_run oracle stop models).debug_info) := by
  constructor
  · intro hns
    have hres := process_loop_results oracle stop models 0
      { results := [],
        debug_info := ["Starting comparison with " ++ toString models.length ++ " models"] }
      models.length hnd (fun m _ => rfl)
      (fun j hj => by simpa using hns j hj) (Or.inl rfl)
    rw [compare_run, process_models, hres]
    rw [List.nil_append, List.take_length]
    exact keys_map_pair _ models
  · intro k hk hbefore hstopk
    have hres := process_loop_results oracle stop models 0
      { results := [],
        debug_info := ["Starting comparison with " ++ toString models.length ++ " models"] }
      k hnd (fun m _ => rfl)
      (fun j hj => by simpa using hbefore j hj)
      (Or.inr ⟨hk, by simpa using hstopk⟩)
    refine ⟨?_, ?_, ?_⟩
    · rw [compare_run, process_models, hres, List.nil_append]
      exact keys_map_pair _ (models.take k)
    · intro m hm
      rw [compare_run, process_models, hres, List.nil_append]
      exact lookup_map_pair _ (models.take k) m hm
    · rw [compare_run, process_models]
      exact process_loop_debug_stop oracle stop models 0 _ k
        (fun j hj => by simpa using hbefore j hj) hk (by simpa using hstopk)

/-- Witness for C1: with the flag turning true before the second of
three models the keys are exactly the first model; with the flag never
true the keys are the full requested list. -/
theorem C1_results_keys_witness :
    keys (compare_run (fun _ => QueryOutcome.ok "x") (fun i => decide (1 ≤ i))
      ["a", "b", "c"]).results = ["a"]
    ∧ keys (compare_run (fun _ => QueryOutcome.ok "x") (fun _ => false)
      ["a", "b", "c"]).results = ["a", "b", "c"] := by
  constructor
  · exact ((C1_results_keys (fun _ => QueryOutcome.ok "x") (fun i => decide (1 ≤ i))
      ["a", "b", "c"] (by decide) (by decide)).2 1 (by decide)
      (fun i hi => by simp only [decide_eq_false_iff_not]; omega) (by decide)).1
  · exact (C1_results_keys (fun _ => QueryOutcome.ok "x") (fun _ => false)
      ["a", "b", "c"] (by decide) (by decide)).1 (fun i _ => rfl)

lemma pyGetBoolean_pyStrBool (b : Bool) : pyGetBoolean (pyStrBool b) = Except.ok b := by
  cases b <;> rfl

/-- Claim C10: saving a profile with temperature 0.42 and streaming
disabled and then loading it by name yields a configuration whose
temperature is again 0.42 and whose streaming flag is false, through
the string encoding of the key-value profile file. -/
theorem C10_profile_roundtrip (config : IniConfig) (name : String) (st : Settings)
    (h1 : st.temperature = ⟨42, 2⟩) (h2 : st.enable_streaming = false) :
    ∃ (sec : IniSection) (st' : Settings),
      List.lookup name (save_profile config name st) = some sec
      ∧ load_profile sec = Except.ok st'
      ∧ st'.temperature = ⟨42, 2⟩ ∧ st'.enable_streaming = false := by
  have hlk : List.lookup name (save_profile config name st)
      = some (save_profile_section st) :=
    lookup_insertOrUpdate_self config name (save_profile_section st)
  cases hb3 : st.remove_think_blocks_setting with
  | false =>
    refine ⟨save_profile_section st,
      { selected_models := ((String.intercalate "," st.selected_models).splitOn ",").filter
          (fun m => m != "")
        enable_streaming := false
        temperature := ⟨42, 2⟩
        system_prompt := st.system_prompt
        evaluation_model := st.evaluation_model
        evaluation_prompt := st.evaluation_prompt
        remove_think_blocks_setting := false }, hlk, ?_, rfl, rfl⟩
    unfold load_profile save_profile_section
    rw [h1, h2, hb3]
    rfl
  | true =>
    refine ⟨save_profile_section st,
      { selected_models := ((String.intercalate "," st.selected_models).splitOn ",").filter
          (fun m => m != "")
        enable_streaming := false
        temperature := ⟨42, 2⟩
        system_prompt := st.system_prompt
        evaluation_model := st.evaluation_model
        evaluation_prompt := st.evaluation_prompt
        remove_think_blocks_setting := true }, hlk, ?_, rfl, rfl⟩
    unfold load_profile save_profile_section
    rw [h1, h2, hb3]
    rfl

/-- Witness for C10: a concrete profile with temperature 0.42 and
streaming disabled round-trips through the file encoding. -/
theorem C10_profile_roundtrip_witness :
    ∃ (sec : IniSection) (st' : Settings),
      List.lookup "prof" (save_profile [] "prof"
        { selected_models := ["llama3:latest"]
          enable_streaming := false
          temperature := ⟨42, 2⟩
          system_prompt := ""
          evaluation_model := ""
          evaluation_prompt := ""
          remove_think_blocks_setting := false }) = some sec
      ∧ load_profile sec = Except.ok st'
      ∧ st'.temperature = ⟨42, 2⟩ ∧ st'.enable_streaming = false :=
  C10_profile_roundtrip [] "prof"
    { selected_models := ["llama3:latest"]
      enable_streaming := false
      temperature := ⟨42, 2⟩
      system_prompt := ""
      evaluation_model := ""
      evaluation_prompt := ""
      remove_think_blocks_setting := false } rfl rfl

end LLMSuite
